import Mathlib

/-!
Shallow embedding of the PowNote backend chat path (src/backend/server.py,
endpoint chat_with_ai and its helpers), together with theorems checking the
specification's claims about it.

Modelling conventions:
  - The MongoDB collections are modelled as Lean lists; the chat_messages
    collection is a list of ChatMessage records, the pets collection a list of
    Pet records.  A Mongo query
    find(filter).sort(created_at, 1).to_list(n) becomes: filter the list,
    stable-sort it ascending by created_at (List.insertionSort), take n.
  - The created_at timestamp (datetime.utcnow in the source) is modelled as a
    Nat; the orchestrator receives the current tick and stamps the user turn
    with it and the assistant turn with the next tick, matching the source
    where the user-turn ChatMessage object is constructed before the
    assistant-turn one.
  - The LLM provider (LlmChat / send_message from emergentintegrations) is an
    external collaborator; it is modelled as a function from the system prompt
    and an outbound UserMessage to Except String String, where error e models
    send_message raising exception e.  Each replayed message and the final
    message are sent through it in source order; the first error aborts the
    call, as an exception would.
  - Python string operations that the source uses are embedded structurally
    over List Char so that they compute in the kernel:
    s.split on a comma becomes pySplitComma (splitting at every comma, like
    the Python str.split with a separator), s.strip() becomes pyStrip.
  - Python truthiness on optional strings (None and the empty string are
    falsy) is embedded by explicit matches; Python float weight is embedded
    as Rat (it is only rendered into the context string, never computed with).
-/

namespace Pawnote

/-- Pet model (server.py, class Pet).  Fields not used by the chat path
(photo, created_at) are omitted; id is the lookup key used by find_one. -/
structure Pet where
  id : String
  name : String
  birth_date : String
  pet_type : String
  custom_pet_type : Option String
  breed : Option String
  weight : Option Rat
  gender : Option String
deriving DecidableEq

/-- Chat turn model (server.py, class ChatMessage).  The uuid id field is
omitted (never read by the chat path); created_at is a Nat tick. -/
structure ChatMessage where
  session_id : String
  role : String
  content : String
  image : Option String
  pet_id : Option String
  created_at : Nat
deriving DecidableEq

/-- Request body of POST /api/chat (server.py, class ChatRequest). -/
structure ChatRequest where
  session_id : String
  message : String
  image : Option String
  pet_id : Option String
deriving DecidableEq

/-- Image part attached to an outbound provider message (server.py line 474,
FileContent(content_type=..., file_content_base64=...)). -/
structure FileContent where
  content_type : String
  file_content_base64 : String
deriving DecidableEq

/-- Outbound provider message (UserMessage in the source); replayed history
messages carry no file parts, the new turn may carry one. -/
structure UserMessage where
  text : String
  file_contents : List FileContent
deriving DecidableEq

/-- Application state touched by the chat endpoint: the pets collection and
the chat_messages collection. -/
structure ChatState where
  pets : List Pet
  chat_messages : List ChatMessage
deriving DecidableEq

/-- Species label selection (server.py line 423): the custom pet type is used
exactly when pet_type is the literal other and the custom label is truthy
(neither None nor empty). -/
def petTypeStr (p : Pet) : String :=
  match p.custom_pet_type with
  | some c => if p.pet_type == "other" && c != "" then c else p.pet_type
  | none => p.pet_type

/-- Gender fragment (server.py line 425): a leading-space-prefixed gender when
truthy, otherwise the empty string. -/
def genderStr (p : Pet) : String :=
  match p.gender with
  | some g => if g != "" then " " ++ g else ""
  | none => ""

/-- Breed parenthetical (server.py lines 427-428), appended only when breed is
truthy. -/
def breedClause (p : Pet) : String :=
  match p.breed with
  | some b => if b != "" then " (" ++ b ++ ")" else ""
  | none => ""

/-- Weight fragment (server.py lines 430-431), appended only when weight is
truthy (Python float 0.0 is falsy). -/
def weightClause (p : Pet) : String :=
  match p.weight with
  | some w => if w != 0 then ", weighing " ++ toString w ++ " lb" else ""
  | none => ""

/-- Rendered pet context for a found pet (server.py lines 421-432), built by
the same concatenation order as the source f-string and += chain. -/
def petContextOfPet (p : Pet) : String :=
  "\n\nCurrent pet context: " ++ p.name ++ " is a" ++ genderStr p ++ " " ++ petTypeStr p
    ++ breedClause p ++ ", born on " ++ p.birth_date ++ weightClause p ++ "."

/-- Pet context resolution (server.py lines 417-432): empty string when the
request carries no truthy pet_id or the pet is not found by id. -/
def petContext (pets : List Pet) (pet_id : Option String) : String :=
  match pet_id with
  | none => ""
  | some pid =>
    if pid == "" then ""
    else
      match pets.find? (fun p => p.id == pid) with
      | none => ""
      | some p => petContextOfPet p

/-- Static persona block of the system prompt (server.py lines 439-452); the
f-string ends by splicing pet_context after the word helpful.  The first
line of the literal ends with a trailing space, as in the source. -/
def systemPersona : String :=
  "You are Pawnote AI, a friendly and supportive pet care assistant. \nYou help pet owners with:\n- General pet care questions and tips\n- Understanding vet instructions\n- Daily care routines and best practices\n- Answering \"Is this normal?\" type questions\n- Providing age-appropriate care guidance\n\nImportant guidelines:\n- Be warm, supportive, and conversational\n- Never diagnose medical conditions - always recommend consulting a vet for health concerns\n- Provide practical, actionable advice\n- Consider the pet\x27s species, breed, and age when giving advice\n- Keep responses concise but helpful"

/-- Full system prompt: persona followed by the pet context fragment. -/
def systemMessage (pet_context : String) : String :=
  systemPersona ++ pet_context

/-- Ascending order on turns by created_at, the sort key of the history query
(server.py line 437, sort(created_at, 1)). -/
def timeLe (a b : ChatMessage) : Prop :=
  a.created_at ≤ b.created_at

instance : DecidableRel timeLe := fun _ _ => Nat.decLe _ _

instance : IsTotal ChatMessage timeLe := ⟨fun _ _ => Nat.le_total _ _⟩

instance : IsTrans ChatMessage timeLe := ⟨fun _ _ _ => Nat.le_trans⟩

/-- All stored turns of a session (the find filter of server.py line 436). -/
def sessionTurns (store : List ChatMessage) (sid : String) : List ChatMessage :=
  store.filter (fun m => m.session_id == sid)

/-- History fetch of the chat endpoint (server.py lines 435-437): filter by
session, sort ascending by created_at, and to_list(20), i.e. keep the first
20 documents of the ascending order. -/
def fetchHistory (store : List ChatMessage) (sid : String) : List ChatMessage :=
  (List.insertionSort timeLe (sessionTurns store sid)).take 20

/-- Turns actually replayed (server.py lines 462-464): iterate over the last
10 elements of the fetched history and keep those with role user. -/
def replayTurns (history : List ChatMessage) : List ChatMessage :=
  (history.drop (history.length - 10)).filter (fun m => m.role == "user")

/-- Replayed outbound messages: only the stored text content is forwarded,
never a stored image (server.py line 464 sends UserMessage(text=content)). -/
def replayMessages (history : List ChatMessage) : List UserMessage :=
  (replayTurns history).map (fun m => ⟨m.content, []⟩)

/-- Python list-of-characters split at every comma, the semantics of the
source expression that splits image_data at commas (server.py line 471). -/
def pySplitCommaAux : List Char → List (List Char)
  | [] => [[]]
  | c :: cs =>
    if c = ',' then [] :: pySplitCommaAux cs
    else
      match pySplitCommaAux cs with
      | [] => [[c]]
      | r :: rs => (c :: r) :: rs

/-- String-level comma split, matching Python str.split with a comma
separator: no comma gives the singleton list, adjacent commas give empty
fields. -/
def pySplitComma (s : String) : List String :=
  (pySplitCommaAux s.toList).map String.mk

/-- Data-URI prefix stripping (server.py lines 469-471): when the image
string contains a comma, the forwarded payload is element 1 of the full
comma split, i.e. the text between the first and the second comma; otherwise
the string is forwarded unchanged. -/
def stripDataUri (s : String) : String :=
  match pySplitComma s with
  | _ :: second :: _ => second
  | _ => s

/-- Python str.strip(): drop leading and trailing whitespace. -/
def pyStrip (s : String) : String :=
  String.mk (((s.toList.dropWhile Char.isWhitespace).reverse.dropWhile Char.isWhitespace).reverse)

/-- Default outbound text used when an image is attached and the message text
is falsy (server.py line 477). -/
def defaultImagePrompt : String :=
  "What do you see in this image? Please provide any relevant pet care advice based on what you observe."

/-- Construction of the final outbound message (server.py lines 467-482).
With a truthy image: payload is the comma-stripped image, content type is the
literal image/jpeg, and the text is the stripped message when truthy, else
the default prompt.  Otherwise the message text is sent verbatim with no file
part. -/
def newOutbound (req : ChatRequest) : UserMessage :=
  match req.image with
  | some img =>
    if img != "" then
      let image_data := stripDataUri img
      let image_file : FileContent := ⟨"image/jpeg", image_data⟩
      let message_text := if req.message != "" then pyStrip req.message else defaultImagePrompt
      ⟨message_text, [image_file]⟩
    else ⟨req.message, []⟩
  | none => ⟨req.message, []⟩

/-- Sequential sends with fail-fast semantics: each await send_message either
returns text or raises, and the first raise aborts the loop. -/
def sendAll (send : UserMessage → Except String String) : List UserMessage → Except String Unit
  | [] => Except.ok ()
  | m :: ms =>
    match send m with
    | Except.error e => Except.error e
    | Except.ok _ => sendAll send ms

/-- Persisted user turn (server.py lines 485-491): content is the request
message when truthy, else the literal image placeholder; the stored image and
pet_id are copied from the request unchanged. -/
def userTurn (req : ChatRequest) (now : Nat) : ChatMessage :=
  ⟨req.session_id, "user", if req.message != "" then req.message else "[Image]",
    req.image, req.pet_id, now⟩

/-- Persisted assistant turn (server.py lines 494-499): content is the
provider reply, no image, pet_id copied from the request. -/
def assistantTurn (req : ChatRequest) (response : String) (now : Nat) : ChatMessage :=
  ⟨req.session_id, "assistant", response, none, req.pet_id, now⟩

/-- Full outbound sequence the endpoint would submit to the provider for a
given store and request: the replayed history messages followed by the new
turn. -/
def outboundSequence (store : List ChatMessage) (req : ChatRequest) : List UserMessage :=
  replayMessages (fetchHistory store req.session_id) ++ [newOutbound req]

/-- Chat endpoint (server.py lines 410-505).  Returns the HTTP-level outcome
(reply text or error detail) together with the post-call state.  The key
check models if not EMERGENT_LLM_KEY; the provider receives the system
prompt and each outbound message in source order; persistence of the two
turns happens only after the final send succeeds, exactly as the two
insert_one calls sit after the awaited send_message in the try block. -/
def chat_with_ai (key : String) (provider : String → UserMessage → Except String String)
    (now : Nat) (st : ChatState) (req : ChatRequest) :
    Except String String × ChatState :=
  if key == "" then (Except.error "AI service not configured", st)
  else
    let pet_context := petContext st.pets req.pet_id
    let history := fetchHistory st.chat_messages req.session_id
    let system_message := systemMessage pet_context
    match sendAll (provider system_message) (replayMessages history) with
    | Except.error e => (Except.error ("AI service error: " ++ e), st)
    | Except.ok _ =>
      match provider system_message (newOutbound req) with
      | Except.error e => (Except.error ("AI service error: " ++ e), st)
      | Except.ok response =>
        (Except.ok response,
          ⟨st.pets, st.chat_messages ++ [userTurn req now, assistantTurn req response (now + 1)]⟩)

/-- Sample stored user turn for the window counterexamples: session s, role
user, distinct content per tick. -/
def mkTurn (t : Nat) : ChatMessage :=
  ⟨"s", "user", "m" ++ toString t, none, none, t⟩

/-- Store holding 21 user turns of one session with created_at 0..20. -/
def exWindowStore : List ChatMessage :=
  (List.range 21).map mkTurn

/-- Fixed provider used by the concrete witnesses: every send succeeds with
reply R. -/
def provider₀ : String → UserMessage → Except String String :=
  fun _ _ => Except.ok "R"

/-- Concrete request used by several witnesses: plain text, no image, no
pet. -/
def req₀ : ChatRequest :=
  ⟨"s", "hi", none, none⟩

/-- Projection of a stored turn to the fields that can influence outbound
provider traffic: session id, role, text content and timestamp — everything
except the stored image payload and pet reference. -/
def visible (m : ChatMessage) : String × String × String × Nat :=
  (m.session_id, m.role, m.content, m.created_at)

/-- Store with one user turn carrying one stored image payload. -/
def exImgStore1 : List ChatMessage :=
  [⟨"s", "user", "hi", some "data:image/png;base64,AAAA", none, 0⟩]

/-- Same store except for a different stored image payload. -/
def exImgStore2 : List ChatMessage :=
  [⟨"s", "user", "hi", some "data:image/png;base64,BBBB", some "p1", 0⟩]

/-- Concrete pet with species other and a custom label, used in witnesses. -/
def exPet : Pet :=
  ⟨"p1", "Rex", "2020-01-01", "other", some "Rabbit", none, none, none⟩

/-- Concrete request carrying a whitespace-only message and an image. -/
def reqSpace : ChatRequest :=
  ⟨"s", " ", some "img", none⟩

/-- Concrete request carrying text and a PNG data URI image. -/
def reqPng : ChatRequest :=
  ⟨"s", "hi", some "data:image/png;base64,AAAA", none⟩

/-! ## Helper lemmas -/

/-- Outcome characterization of the chat endpoint: either it fails and the
state is untouched, or the final provider send succeeded with some reply and
exactly the user turn and assistant turn are appended. -/
lemma chat_with_ai_spec (key : String) (provider : String → UserMessage → Except String String)
    (now : Nat) (st : ChatState) (req : ChatRequest) :
    (∃ e, chat_with_ai key provider now st req = (Except.error e, st)) ∨
    (∃ r, provider (systemMessage (petContext st.pets req.pet_id)) (newOutbound req) = Except.ok r ∧
      chat_with_ai key provider now st req =
        (Except.ok r, ⟨st.pets, st.chat_messages ++
          [userTurn req now, assistantTurn req r (now + 1)]⟩)) := by
  unfold chat_with_ai
  dsimp only
  cases hk : key == "" with
  | true => exact Or.inl ⟨"AI service not configured", by simp [hk]⟩
  | false =>
    cases hs : sendAll (provider (systemMessage (petContext st.pets req.pet_id)))
        (replayMessages (fetchHistory st.chat_messages req.session_id)) with
    | error e => exact Or.inl ⟨"AI service error: " ++ e, by simp [hk, hs]⟩
    | ok u =>
      cases hp : provider (systemMessage (petContext st.pets req.pet_id)) (newOutbound req) with
      | error e => exact Or.inl ⟨"AI service error: " ++ e, by simp [hk, hs, hp]⟩
      | ok r => exact Or.inr ⟨r, rfl, by simp [hk, hs, hp]⟩

/-- The fetched history is sorted ascending by created_at. -/
lemma sorted_fetchHistory (store : List ChatMessage) (sid : String) :
    List.Sorted timeLe (fetchHistory store sid) :=
  (List.sorted_insertionSort timeLe (sessionTurns store sid)).sublist
    (List.take_sublist 20 _)

/-- Every fetched turn belongs to the session. -/
lemma mem_session_of_mem_fetchHistory {store : List ChatMessage} {sid : String}
    {m : ChatMessage} (h : m ∈ fetchHistory store sid) : m ∈ sessionTurns store sid :=
  ((List.perm_insertionSort timeLe (sessionTurns store sid)).mem_iff).mp
    (List.mem_of_mem_take h)

/-- A session turn left out of the fetched window is no older than any turn
inside it: the window keeps the earliest turns of the ascending order. -/
lemma le_of_not_mem_fetchHistory {store : List ChatMessage} {sid : String} {n : ChatMessage}
    (hn : n ∈ sessionTurns store sid) (hout : n ∉ fetchHistory store sid) :
    ∀ m ∈ fetchHistory store sid, timeLe m n := by
  intro m hm
  have hnL : n ∈ List.insertionSort timeLe (sessionTurns store sid) :=
    ((List.perm_insertionSort timeLe (sessionTurns store sid)).mem_iff).mpr hn
  have hpair : List.Pairwise timeLe (List.insertionSort timeLe (sessionTurns store sid)) :=
    List.sorted_insertionSort timeLe (sessionTurns store sid)
  have hsplit := List.take_append_drop 20 (List.insertionSort timeLe (sessionTurns store sid))
  have hpair2 : List.Pairwise timeLe
      ((List.insertionSort timeLe (sessionTurns store sid)).take 20 ++
        (List.insertionSort timeLe (sessionTurns store sid)).drop 20) := by
    rw [hsplit]; exact hpair
  have hdecomp := List.pairwise_append.mp hpair2
  have hnd : n ∈ (List.insertionSort timeLe (sessionTurns store sid)).drop 20 := by
    have hmem : n ∈ (List.insertionSort timeLe (sessionTurns store sid)).take 20 ++
        (List.insertionSort timeLe (sessionTurns store sid)).drop 20 := by
      rw [hsplit]; exact hnL
    rcases List.mem_append.mp hmem with h | h
    · exact absurd h hout
    · exact h
  exact hdecomp.2.2 m hm n hnd

/-! ## Claim theorems -/

/-- C1: for every chat call, a provider failure (or missing key) leaves the
stored history unchanged, while a success appends exactly the user turn
followed by the assistant turn and returns the reply the provider produced
for the final outbound message. -/
theorem C1_chat_atomic (key : String) (provider : String → UserMessage → Except String String)
    (now : Nat) (st : ChatState) (req : ChatRequest) :
    (∀ e, (chat_with_ai key provider now st req).1 = Except.error e →
      (chat_with_ai key provider now st req).2 = st) ∧
    (∀ r, (chat_with_ai key provider now st req).1 = Except.ok r →
      provider (systemMessage (petContext st.pets req.pet_id)) (newOutbound req) = Except.ok r ∧
      (chat_with_ai key provider now st req).2.chat_messages =
        st.chat_messages ++ [userTurn req now, assistantTurn req r (now + 1)] ∧
      (userTurn req now).role = "user" ∧
      (assistantTurn req r (now + 1)).role = "assistant") := by
  rcases chat_with_ai_spec key provider now st req with ⟨e, he⟩ | ⟨r, hp, hr⟩
  · refine ⟨fun e' _ => by rw [he], fun r h' => ?_⟩
    rw [he] at h'
    exact absurd h' (by simp)
  · refine ⟨fun e h' => ?_, fun r' h' => ?_⟩
    · rw [hr] at h'
      exact absurd h' (by simp)
    · rw [hr] at h'
      have hrr : r = r' := by simpa using h'
      subst hrr
      rw [hr]
      exact ⟨hp, rfl, rfl, rfl⟩

/-- Witness for C1 at a concrete successful call. -/
theorem C1_chat_atomic_witness :
    provider₀ (systemMessage (petContext ([] : List Pet) none)) (newOutbound req₀) =
        Except.ok "R" ∧
      (chat_with_ai "k" provider₀ 0 ⟨[], []⟩ req₀).2.chat_messages =
        [] ++ [userTurn req₀ 0, assistantTurn req₀ "R" 1] ∧
      (userTurn req₀ 0).role = "user" ∧ (assistantTurn req₀ "R" 1).role = "assistant" :=
  (C1_chat_atomic "k" provider₀ 0 ⟨[], []⟩ req₀).2 "R" rfl

/-- The replay loop body ranges over at most 10 turns. -/
lemma replayTurns_length_le (h : List ChatMessage) : (replayTurns h).length ≤ 10 := by
  have h1 := List.length_filter_le (fun m => m.role == "user") (h.drop (h.length - 10))
  have h2 : (h.drop (h.length - 10)).length = h.length - (h.length - 10) :=
    List.length_drop _ _
  unfold replayTurns
  omega

/-- Every replayed turn has role user and comes from the fetched history. -/
lemma replayTurns_mem {h : List ChatMessage} {m : ChatMessage} (hm : m ∈ replayTurns h) :
    m.role = "user" ∧ m ∈ h := by
  unfold replayTurns at hm
  rcases List.mem_filter.mp hm with ⟨hd, hrole⟩
  exact ⟨eq_of_beq hrole, List.mem_of_mem_drop hd⟩

/-- Replay preserves the ascending time order of the history. -/
lemma sorted_replayTurns {h : List ChatMessage} (hs : List.Sorted timeLe h) :
    List.Sorted timeLe (replayTurns h) :=
  hs.sublist ((List.filter_sublist _).trans (List.drop_sublist _ _))

/-- C2 counterexample: with 21 stored turns (created_at 0..20) in one
session, the turn with the greatest created_at is a session turn yet absent
from the fetched set, whose members all have strictly smaller created_at, so
the fetched set is not the 20 most recent turns. -/
theorem C2_counterexample :
    (sessionTurns exWindowStore "s").length = 21 ∧
    mkTurn 20 ∈ sessionTurns exWindowStore "s" ∧
    mkTurn 20 ∉ fetchHistory exWindowStore "s" ∧
    (∀ m ∈ fetchHistory exWindowStore "s", m.created_at < (mkTurn 20).created_at) := by
  decide

/-- C2 (amended): the history fetch retrieves at most 20 records, in
ascending created_at order, and when turns are left out the fetched set is
the oldest prefix: every fetched turn is no newer than any excluded session
turn. -/
theorem C2_history_window (store : List ChatMessage) (sid : String) :
    (fetchHistory store sid).length ≤ 20 ∧
    List.Sorted timeLe (fetchHistory store sid) ∧
    (∀ n ∈ sessionTurns store sid, n ∉ fetchHistory store sid →
      ∀ m ∈ fetchHistory store sid, timeLe m n) :=
  ⟨List.length_take_le 20 _, sorted_fetchHistory store sid,
    fun _ hn hout => le_of_not_mem_fetchHistory hn hout⟩

/-- Witness for C2 at the 21-turn store. -/
theorem C2_history_window_witness :
    (fetchHistory exWindowStore "s").length ≤ 20 ∧
    (∀ m ∈ fetchHistory exWindowStore "s", timeLe m (mkTurn 20)) :=
  ⟨(C2_history_window exWindowStore "s").1,
    (C2_history_window exWindowStore "s").2.2 (mkTurn 20) (by decide) (by decide)⟩

/-- C3 counterexample: with 21 stored user turns, the replayed sequence is
full (10 messages) yet never contains the content of the most recent
user-role turn of the session, so the replayed turns are not the most recent
user turns. -/
theorem C3_counterexample :
    (mkTurn 20).role = "user" ∧
    mkTurn 20 ∈ sessionTurns exWindowStore "s" ∧
    (∀ m ∈ sessionTurns exWindowStore "s", timeLe m (mkTurn 20)) ∧
    (replayMessages (fetchHistory exWindowStore "s")).length = 10 ∧
    (∀ u ∈ replayMessages (fetchHistory exWindowStore "s"), u.text ≠ (mkTurn 20).content) := by
  decide

/-- C3 (amended): the replay step forwards at most 10 turns, all of role
user, drawn from the fetched window (the oldest 20 session turns), in
ascending time order, and they are submitted before the new turn. -/
theorem C3_replay_window (store : List ChatMessage) (req : ChatRequest) :
    (replayTurns (fetchHistory store req.session_id)).length ≤ 10 ∧
    (∀ m ∈ replayTurns (fetchHistory store req.session_id),
      m.role = "user" ∧ m ∈ fetchHistory store req.session_id) ∧
    List.Sorted timeLe (replayTurns (fetchHistory store req.session_id)) ∧
    outboundSequence store req =
      (replayTurns (fetchHistory store req.session_id)).map (fun m => ⟨m.content, []⟩) ++
        [newOutbound req] :=
  ⟨replayTurns_length_le _, fun _ hm => replayTurns_mem hm,
    sorted_replayTurns (sorted_fetchHistory store req.session_id), rfl⟩

/-- Witness for C3 at the 21-turn store. -/
theorem C3_replay_window_witness :
    (replayTurns (fetchHistory exWindowStore "s")).length ≤ 10 ∧
    ((mkTurn 10).role = "user" ∧ mkTurn 10 ∈ fetchHistory exWindowStore "s") :=
  ⟨(C3_replay_window exWindowStore req₀).1,
    (C3_replay_window exWindowStore req₀).2.1 (mkTurn 10) (by decide)⟩

/-- Turns with equal visible projections have equal timestamps. -/
lemma visible_created_at {a b : ChatMessage} (h : visible a = visible b) :
    a.created_at = b.created_at :=
  congrArg (fun v => v.2.2.2) h

/-- The history sort order only inspects the visible projection. -/
lemma visible_timeLe_iff {a b a2 b2 : ChatMessage} (ha : visible a = visible a2)
    (hb : visible b = visible b2) : timeLe a b ↔ timeLe a2 b2 := by
  unfold timeLe
  rw [visible_created_at ha, visible_created_at hb]

/-- Session filtering only inspects the visible projection. -/
lemma map_visible_sessionTurns (sid : String) {l1 l2 : List ChatMessage}
    (h : l1.map visible = l2.map visible) :
    (sessionTurns l1 sid).map visible = (sessionTurns l2 sid).map visible := by
  have key : ∀ l : List ChatMessage, (sessionTurns l sid).map visible =
      (l.map visible).filter (fun v => v.1 == sid) := by
    intro l
    unfold sessionTurns
    rw [List.filter_map]
    rfl
  rw [key, key, h]

/-- Ordered insertion only inspects the visible projection. -/
lemma map_visible_orderedInsert :
    ∀ (l1 l2 : List ChatMessage) (a b : ChatMessage), visible a = visible b →
      l1.map visible = l2.map visible →
      (List.orderedInsert timeLe a l1).map visible =
        (List.orderedInsert timeLe b l2).map visible := by
  intro l1
  induction l1 with
  | nil =>
    intro l2 a b hab h
    have hl2 : l2 = [] := by
      cases l2 with
      | nil => rfl
      | cons y ys => simp at h
    subst hl2
    simp [List.orderedInsert, hab]
  | cons x l1 ih =>
    intro l2 a b hab h
    cases l2 with
    | nil => simp at h
    | cons y l2 =>
      simp only [List.map_cons, List.cons.injEq] at h
      obtain ⟨hxy, htail⟩ := h
      by_cases hax : timeLe a x
      · have hby : timeLe b y := (visible_timeLe_iff hab hxy).mp hax
        simp [List.orderedInsert, hax, hby, hab, hxy, htail]
      · have hby : ¬ timeLe b y := fun hby => hax ((visible_timeLe_iff hab hxy).mpr hby)
        simp only [List.orderedInsert, if_neg hax, if_neg hby, List.map_cons]
        rw [hxy, ih l2 a b hab htail]

/-- Insertion sort only inspects the visible projection. -/
lemma map_visible_insertionSort :
    ∀ l1 l2 : List ChatMessage, l1.map visible = l2.map visible →
      (List.insertionSort timeLe l1).map visible =
        (List.insertionSort timeLe l2).map visible := by
  intro l1
  induction l1 with
  | nil =>
    intro l2 h
    have hl2 : l2 = [] := by
      cases l2 with
      | nil => rfl
      | cons y ys => simp at h
    subst hl2
    rfl
  | cons x l1 ih =>
    intro l2 h
    cases l2 with
    | nil => simp at h
    | cons y l2 =>
      simp only [List.map_cons, List.cons.injEq] at h
      obtain ⟨hxy, htail⟩ := h
      simp only [List.insertionSort]
      exact map_visible_orderedInsert _ _ x y hxy (ih l2 htail)

/-- The history fetch only inspects the visible projection. -/
lemma map_visible_fetchHistory (sid : String) {l1 l2 : List ChatMessage}
    (h : l1.map visible = l2.map visible) :
    (fetchHistory l1 sid).map visible = (fetchHistory l2 sid).map visible := by
  unfold fetchHistory
  rw [List.map_take, List.map_take,
    map_visible_insertionSort _ _ (map_visible_sessionTurns sid h)]

/-- The replay selection only inspects the visible projection. -/
lemma map_visible_replayTurns {h1 h2 : List ChatMessage}
    (hh : h1.map visible = h2.map visible) :
    (replayTurns h1).map visible = (replayTurns h2).map visible := by
  have hlen : h1.length = h2.length := by
    have := congrArg List.length hh
    simpa using this
  have key : ∀ h : List ChatMessage,
      (replayTurns h).map visible =
        ((h.map visible).drop (h.length - 10)).filter (fun v => v.2.1 == "user") := by
    intro h
    unfold replayTurns
    rw [← List.map_drop, List.filter_map]
    rfl
  rw [key, key, hh, hlen]

/-- The replayed message texts are determined by the visible projection. -/
lemma contents_of_map_visible {l1 l2 : List ChatMessage}
    (h : l1.map visible = l2.map visible) :
    l1.map (fun m => (⟨m.content, []⟩ : UserMessage)) =
      l2.map (fun m => (⟨m.content, []⟩ : UserMessage)) := by
  have key : ∀ l : List ChatMessage, l.map (fun m => (⟨m.content, []⟩ : UserMessage)) =
      (l.map visible).map (fun v => (⟨v.2.2.1, []⟩ : UserMessage)) := by
    intro l
    rw [List.map_map]
    rfl
  rw [key, key, h]

/-- C4: two stores agreeing turnwise on session, role, content and timestamp
— but with arbitrarily different stored image payloads (and pet references) —
produce the same outbound sequence to the provider, and no replayed message
ever carries a file part: stored images are never re-sent. -/
theorem C4_stored_images_not_replayed (s1 s2 : List ChatMessage) (req : ChatRequest)
    (h : s1.map visible = s2.map visible) :
    outboundSequence s1 req = outboundSequence s2 req ∧
    (∀ u ∈ replayMessages (fetchHistory s1 req.session_id), u.file_contents = []) := by
  constructor
  · unfold outboundSequence
    have : replayMessages (fetchHistory s1 req.session_id) =
        replayMessages (fetchHistory s2 req.session_id) := by
      unfold replayMessages
      exact contents_of_map_visible
        (map_visible_replayTurns (map_visible_fetchHistory req.session_id h))
    rw [this]
  · intro u hu
    unfold replayMessages at hu
    rcases List.mem_map.mp hu with ⟨m, _, rfl⟩
    rfl

/-- Witness for C4: two one-turn stores differing only in the stored image
payload and pet reference yield identical outbound traffic. -/
theorem C4_stored_images_not_replayed_witness :
    outboundSequence exImgStore1 req₀ = outboundSequence exImgStore2 req₀ ∧
    (∀ u ∈ replayMessages (fetchHistory exImgStore1 req₀.session_id), u.file_contents = []) :=
  C4_stored_images_not_replayed exImgStore1 exImgStore2 req₀ (by decide)

/-- With a truthy image, the outbound message carries exactly one file part:
content type is the literal image/jpeg and the payload is the comma-stripped
image string. -/
lemma newOutbound_image_part {req : ChatRequest} {i : String} (himg : req.image = some i)
    (hi : i ≠ "") :
    (newOutbound req).file_contents = [⟨"image/jpeg", stripDataUri i⟩] := by
  simp only [newOutbound, himg]
  simp [hi]

/-- With a truthy image, the outbound text is the default prompt exactly when
the request message is the empty string, and the stripped message
otherwise. -/
lemma newOutbound_image_text {req : ChatRequest} {i : String} (himg : req.image = some i)
    (hi : i ≠ "") :
    (newOutbound req).text =
      (if req.message = "" then defaultImagePrompt else pyStrip req.message) := by
  simp only [newOutbound, himg]
  by_cases hm : req.message = "" <;> simp [hi, hm]

/-- On success, the appended turns are exactly the user and assistant turn
records built from the request and the reply. -/
lemma chat_with_ai_ok_messages {key : String}
    {provider : String → UserMessage → Except String String} {now : Nat} {st : ChatState}
    {req : ChatRequest} {r : String}
    (hok : (chat_with_ai key provider now st req).1 = Except.ok r) :
    (chat_with_ai key provider now st req).2.chat_messages =
      st.chat_messages ++ [userTurn req now, assistantTurn req r (now + 1)] := by
  rcases chat_with_ai_spec key provider now st req with ⟨e, he⟩ | ⟨r', hp, hr⟩
  · rw [he] at hok
    exact absurd hok (by simp)
  · rw [hr] at hok
    have hrr : r' = r := by simpa using hok
    subst hrr
    rw [hr]

/-- C5 counterexample: a successful call whose message is a single space
(whitespace-only, not empty) persists the space itself as the user-turn
content, not the placeholder the claim requires. -/
theorem C5_counterexample :
    (chat_with_ai "k" provider₀ 0 ⟨[], []⟩ reqSpace).1 = Except.ok "R" ∧
    ((chat_with_ai "k" provider₀ 0 ⟨[], []⟩ reqSpace).2.chat_messages.map
      (fun m => m.content)) = [" ", "R"] ∧
    (" " : String) ≠ "[Image]" :=
  ⟨rfl, rfl, by decide⟩

/-- C5 (amended): on success exactly the user turn then the assistant turn
are appended; the user turn content is the original message, with the
placeholder substituted only when the message is the empty string
(whitespace-only messages are persisted verbatim); its image and pet_id are
the request values; the assistant turn carries the reply, no image, and the
same pet_id. -/
theorem C5_persisted_turns (key : String)
    (provider : String → UserMessage → Except String String) (now : Nat) (st : ChatState)
    (req : ChatRequest) (r : String)
    (hok : (chat_with_ai key provider now st req).1 = Except.ok r) :
    (chat_with_ai key provider now st req).2.chat_messages =
      st.chat_messages ++ [userTurn req now, assistantTurn req r (now + 1)] ∧
    (userTurn req now).content = (if req.message = "" then "[Image]" else req.message) ∧
    (userTurn req now).image = req.image ∧
    (userTurn req now).pet_id = req.pet_id ∧
    (userTurn req now).role = "user" ∧
    (assistantTurn req r (now + 1)).content = r ∧
    (assistantTurn req r (now + 1)).image = none ∧
    (assistantTurn req r (now + 1)).pet_id = req.pet_id ∧
    (assistantTurn req r (now + 1)).role = "assistant" := by
  refine ⟨chat_with_ai_ok_messages hok, ?_, rfl, rfl, rfl, rfl, rfl, rfl, rfl⟩
  unfold userTurn
  by_cases hm : req.message = "" <;> simp [hm]

/-- Witness for C5 at a concrete successful call. -/
theorem C5_persisted_turns_witness :
    (chat_with_ai "k" provider₀ 0 ⟨[], []⟩ req₀).2.chat_messages =
      [] ++ [userTurn req₀ 0, assistantTurn req₀ "R" 1] :=
  (C5_persisted_turns "k" provider₀ 0 ⟨[], []⟩ req₀ "R" rfl).1

/-- C6 counterexample: with an image attached and a whitespace-only (not
empty) message, the outbound text is the stripped message — here the empty
string — and not the default describe-this-image prompt the claim
requires. -/
theorem C6_counterexample :
    (newOutbound reqSpace).text = "" ∧ ("" : String) ≠ defaultImagePrompt :=
  ⟨rfl, by decide⟩

/-- C6 (amended): with an image attached, the outbound text is the fixed
default prompt exactly when the message is the empty string; any non-empty
message — including whitespace-only ones — is sent stripped. -/
theorem C6_outbound_text (req : ChatRequest) (i : String) (himg : req.image = some i)
    (hi : i ≠ "") :
    (newOutbound req).text =
      (if req.message = "" then defaultImagePrompt else pyStrip req.message) :=
  newOutbound_image_text himg hi

/-- Witness for C6: empty message with an image yields the default prompt. -/
theorem C6_outbound_text_witness :
    (newOutbound ⟨"s", "", some "img", none⟩).text =
      (if ("" : String) = "" then defaultImagePrompt else pyStrip "") :=
  C6_outbound_text ⟨"s", "", some "img", none⟩ "img" rfl (by decide)

/-- C7 counterexample: an image string with two commas forwards only the
text between the first and second comma, not everything after the first
comma as the claim states. -/
theorem C7_counterexample :
    stripDataUri "a,b,c" = "b" ∧ ("b" : String) ≠ "b,c" ∧
    (newOutbound ⟨"s", "hi", some "a,b,c", none⟩).file_contents =
      [⟨"image/jpeg", "b"⟩] :=
  ⟨by decide, by decide, by decide⟩

/-- C7 (amended): the forwarded payload is field 1 of the full comma split —
the part between the first and the second comma when two or more commas
exist, everything after the comma when there is exactly one — and a string
with no comma is forwarded unchanged; the data-URI example strips to its
base64 body. -/
theorem C7_strip_data_uri (s : String) :
    ((pySplitComma s).length ≤ 1 → stripDataUri s = s) ∧
    (∀ a b rest, pySplitComma s = a :: b :: rest → stripDataUri s = b) ∧
    stripDataUri "data:image/png;base64,AAAA" = "AAAA" ∧
    stripDataUri "AAAA" = "AAAA" ∧
    (∀ req : ChatRequest, ∀ i, req.image = some i → i ≠ "" →
      (newOutbound req).file_contents = [⟨"image/jpeg", stripDataUri i⟩]) := by
  refine ⟨?_, ?_, by decide, by decide, fun req i himg hi => newOutbound_image_part himg hi⟩
  · intro hlen
    unfold stripDataUri
    cases hsp : pySplitComma s with
    | nil => rfl
    | cons a l =>
      cases l with
      | nil => rfl
      | cons b rest =>
        rw [hsp] at hlen
        simp at hlen
  · intro a b rest hsp
    unfold stripDataUri
    rw [hsp]

/-- Witness for C7 on a one-comma string. -/
theorem C7_strip_data_uri_witness : stripDataUri "x,y" = "y" :=
  (C7_strip_data_uri "x,y").2.1 "x" "y" [] (by decide)

/-- C8: the pet-context fragment is empty when no truthy pet reference is
given or the pet is not found (the resolver is a total function, so no error
can be raised); when found, the custom species label replaces the literal
other exactly when species is other and the label is truthy; absent gender,
breed and weight contribute empty fragments, and the concrete renderings
show the single space of "is a dog" and the custom label in place of
other. -/
theorem C8_pet_context (pets : List Pet) (p : Pet) (s c : String) :
    petContext pets none = "" ∧
    petContext pets (some "") = "" ∧
    (s ≠ "" → pets.find? (fun q => q.id == s) = none → petContext pets (some s) = "") ∧
    (s ≠ "" → pets.find? (fun q => q.id == s) = some p →
      petContext pets (some s) = petContextOfPet p) ∧
    (p.pet_type = "other" → p.custom_pet_type = some c → c ≠ "" → petTypeStr p = c) ∧
    (p.gender = none → genderStr p = "") ∧
    (p.breed = none → breedClause p = "") ∧
    (p.weight = none → weightClause p = "") ∧
    petContextOfPet ⟨"p1", "Rex", "2020-01-01", "dog", none, none, none, none⟩ =
      "\n\nCurrent pet context: Rex is a dog, born on 2020-01-01." ∧
    petContextOfPet exPet =
      "\n\nCurrent pet context: Rex is a Rabbit, born on 2020-01-01." := by
  refine ⟨rfl, rfl, ?_, ?_, ?_, ?_, ?_, ?_, by decide, by decide⟩
  · intro hs hfind
    simp [petContext, hfind, hs]
  · intro hs hfind
    simp [petContext, hfind, hs]
  · intro hot hcust hc
    simp [petTypeStr, hcust, hot, hc]
  · intro hg
    simp [genderStr, hg]
  · intro hb
    simp [breedClause, hb]
  · intro hw
    simp [weightClause, hw]

/-- Witness for C8: lookup of the concrete other-species pet succeeds and
renders its custom label. -/
theorem C8_pet_context_witness :
    petContext [exPet] (some "p1") = petContextOfPet exPet ∧
    petContext [exPet] none = "" :=
  ⟨(C8_pet_context [exPet] exPet "p1" "Rabbit").2.2.2.1 (by decide) (by decide),
    (C8_pet_context [exPet] exPet "p1" "Rabbit").1⟩

/-- C9: a successful call with empty message and no image persists the
placeholder as the user-turn content: the placeholder substitution does not
depend on an image being attached. -/
theorem C9_empty_message_no_image (key : String)
    (provider : String → UserMessage → Except String String) (now : Nat) (st : ChatState)
    (sid : String) (pid : Option String) (r : String)
    (hok : (chat_with_ai key provider now st ⟨sid, "", none, pid⟩).1 = Except.ok r) :
    (chat_with_ai key provider now st ⟨sid, "", none, pid⟩).2.chat_messages =
      st.chat_messages ++ [userTurn ⟨sid, "", none, pid⟩ now,
        assistantTurn ⟨sid, "", none, pid⟩ r (now + 1)] ∧
    (userTurn ⟨sid, "", none, pid⟩ now).content = "[Image]" ∧
    (userTurn ⟨sid, "", none, pid⟩ now).image = none :=
  ⟨chat_with_ai_ok_messages hok, rfl, rfl⟩

/-- Witness for C9 at a concrete successful call. -/
theorem C9_empty_message_no_image_witness :
    (chat_with_ai "k" provider₀ 0 ⟨[], []⟩ ⟨"s", "", none, none⟩).2.chat_messages =
      [] ++ [userTurn ⟨"s", "", none, none⟩ 0, assistantTurn ⟨"s", "", none, none⟩ "R" 1] ∧
    (userTurn ⟨"s", "", none, none⟩ 0).content = "[Image]" ∧
    (userTurn ⟨"s", "", none, none⟩ 0).image = none :=
  C9_empty_message_no_image "k" provider₀ 0 ⟨[], []⟩ "s" none "R" rfl

/-- C10: with a truthy image attached, the forwarded file part always
declares content type image/jpeg — the mime type named by the data-URI
prefix is discarded. -/
theorem C10_image_content_type (req : ChatRequest) (i : String) (himg : req.image = some i)
    (hi : i ≠ "") :
    (newOutbound req).file_contents = [⟨"image/jpeg", stripDataUri i⟩] :=
  newOutbound_image_part himg hi

/-- Witness for C10: a PNG data URI is still forwarded as image/jpeg. -/
theorem C10_image_content_type_witness :
    (newOutbound reqPng).file_contents =
      [⟨"image/jpeg", stripDataUri "data:image/png;base64,AAAA"⟩] :=
  C10_image_content_type reqPng "data:image/png;base64,AAAA" rfl (by decide)

end Pawnote
